import Mathlib

/-!
Verification of the conversation-session store of
`01.LangChain-Howto/02.Build-a-RAG/conversational_rag.py`
(class `ConversationalRAGSystem`): sessions, messages, persistence
(`save_sessions` / `load_sessions`) and the `query` flow.

Modelling conventions:
* Python `datetime` values are modelled as microseconds since the epoch
  (`DateTime := Nat`); `datetime.isoformat` / `datetime.fromisoformat`
  are modelled by an injective decimal rendering with an exact parse
  inverse, matching Python's exact microsecond-precision round-trip.
* JSON documents are modelled by the inductive `Json`; Python `None`
  is JSON `null`, so an absent/None metadata field is `Json.null`.
* The wall clock is modelled by explicit `DateTime` parameters, one per
  `datetime.now()` / `time.time()` read in the source.
* Python `dict` is an insertion-ordered association list: assignment to
  an existing key replaces the value in place, a new key is appended.
* File I/O: `save_sessions` returns the JSON document it would write;
  `load_sessions` receives `none` when the file is unreadable or not
  well-formed JSON (failure inside `json.load`, before any mutation),
  and `some j` when `json.load` yields the document `j`.
-/

/-- JSON values, as produced by Python's `json` module.
Python `None` corresponds to `Json.null`. -/
inductive Json where
  | null : Json
  | bool (b : Bool) : Json
  | num (n : Int) : Json
  | str (s : String) : Json
  | arr (elems : List Json) : Json
  | obj (kvs : List (String × Json)) : Json

mutual

/-- Decidable equality on `Json`. -/
def Json.decEq : (a b : Json) → Decidable (a = b)
  | Json.null, Json.null => isTrue rfl
  | Json.bool a, Json.bool b =>
    match Bool.decEq a b with
    | isTrue h => isTrue (by rw [h])
    | isFalse h => isFalse (fun hh => by cases hh; exact h rfl)
  | Json.num a, Json.num b =>
    match Int.decEq a b with
    | isTrue h => isTrue (by rw [h])
    | isFalse h => isFalse (fun hh => by cases hh; exact h rfl)
  | Json.str a, Json.str b =>
    match String.decEq a b with
    | isTrue h => isTrue (by rw [h])
    | isFalse h => isFalse (fun hh => by cases hh; exact h rfl)
  | Json.arr xs, Json.arr ys =>
    match Json.decEqList xs ys with
    | isTrue h => isTrue (by rw [h])
    | isFalse h => isFalse (fun hh => by cases hh; exact h rfl)
  | Json.obj xs, Json.obj ys =>
    match Json.decEqKVs xs ys with
    | isTrue h => isTrue (by rw [h])
    | isFalse h => isFalse (fun hh => by cases hh; exact h rfl)
  | Json.null, Json.bool _ => isFalse (by intro h; cases h)
  | Json.null, Json.num _ => isFalse (by intro h; cases h)
  | Json.null, Json.str _ => isFalse (by intro h; cases h)
  | Json.null, Json.arr _ => isFalse (by intro h; cases h)
  | Json.null, Json.obj _ => isFalse (by intro h; cases h)
  | Json.bool _, Json.null => isFalse (by intro h; cases h)
  | Json.bool _, Json.num _ => isFalse (by intro h; cases h)
  | Json.bool _, Json.str _ => isFalse (by intro h; cases h)
  | Json.bool _, Json.arr _ => isFalse (by intro h; cases h)
  | Json.bool _, Json.obj _ => isFalse (by intro h; cases h)
  | Json.num _, Json.null => isFalse (by intro h; cases h)
  | Json.num _, Json.bool _ => isFalse (by intro h; cases h)
  | Json.num _, Json.str _ => isFalse (by intro h; cases h)
  | Json.num _, Json.arr _ => isFalse (by intro h; cases h)
  | Json.num _, Json.obj _ => isFalse (by intro h; cases h)
  | Json.str _, Json.null => isFalse (by intro h; cases h)
  | Json.str _, Json.bool _ => isFalse (by intro h; cases h)
  | Json.str _, Json.num _ => isFalse (by intro h; cases h)
  | Json.str _, Json.arr _ => isFalse (by intro h; cases h)
  | Json.str _, Json.obj _ => isFalse (by intro h; cases h)
  | Json.arr _, Json.null => isFalse (by intro h; cases h)
  | Json.arr _, Json.bool _ => isFalse (by intro h; cases h)
  | Json.arr _, Json.num _ => isFalse (by intro h; cases h)
  | Json.arr _, Json.str _ => isFalse (by intro h; cases h)
  | Json.arr _, Json.obj _ => isFalse (by intro h; cases h)
  | Json.obj _, Json.null => isFalse (by intro h; cases h)
  | Json.obj _, Json.bool _ => isFalse (by intro h; cases h)
  | Json.obj _, Json.num _ => isFalse (by intro h; cases h)
  | Json.obj _, Json.str _ => isFalse (by intro h; cases h)
  | Json.obj _, Json.arr _ => isFalse (by intro h; cases h)

/-- Decidable equality on lists of `Json`. -/
def Json.decEqList : (a b : List Json) → Decidable (a = b)
  | [], [] => isTrue rfl
  | [], _ :: _ => isFalse (by intro h; cases h)
  | _ :: _, [] => isFalse (by intro h; cases h)
  | x :: xs, y :: ys =>
    match Json.decEq x y with
    | isFalse h => isFalse (fun hh => by cases hh; exact h rfl)
    | isTrue h1 =>
      match Json.decEqList xs ys with
      | isTrue h2 => isTrue (by rw [h1, h2])
      | isFalse h => isFalse (fun hh => by cases hh; exact h rfl)

/-- Decidable equality on `Json` key-value lists. -/
def Json.decEqKVs : (a b : List (String × Json)) → Decidable (a = b)
  | [], [] => isTrue rfl
  | [], _ :: _ => isFalse (by intro h; cases h)
  | _ :: _, [] => isFalse (by intro h; cases h)
  | (k1, v1) :: xs, (k2, v2) :: ys =>
    match String.decEq k1 k2 with
    | isFalse h => isFalse (fun hh => by cases hh; exact h rfl)
    | isTrue hk =>
      match Json.decEq v1 v2 with
      | isFalse h => isFalse (fun hh => by cases hh; exact h rfl)
      | isTrue hv =>
        match Json.decEqKVs xs ys with
        | isTrue ht => isTrue (by rw [hk, hv, ht])
        | isFalse h => isFalse (fun hh => by cases hh; exact h rfl)

end

instance : DecidableEq Json := Json.decEq

/-- `datetime` modelled as microseconds since the epoch. -/
abbrev DateTime := Nat

/-- The character for a decimal digit. -/
def digitChar (d : Nat) : Char := Char.ofNat (48 + d)

/-- The decimal digit of a digit character. -/
def charDigit (c : Char) : Nat := c.toNat - 48

/-- Whether a character is a decimal digit. -/
def isDigitChar (c : Char) : Bool := 48 ≤ c.toNat && c.toNat ≤ 57

/-- Little-endian decimal digits of `n`, with structural fuel. -/
def toDigitsRev : Nat → Nat → List Nat
  | 0, _ => []
  | fuel + 1, n => if n = 0 then [] else n % 10 :: toDigitsRev fuel (n / 10)

/-- Value of a little-endian decimal digit list. -/
def fromDigits : List Nat → Nat
  | [] => 0
  | d :: rest => d + 10 * fromDigits rest

/-- Decimal rendering of a natural number. -/
def decimalString (n : Nat) : String :=
  if n = 0 then "0" else ⟨((toDigitsRev n n).map digitChar).reverse⟩

/-- Parse a decimal string; `none` on a malformed input. -/
def decimalParse (s : String) : Option Nat :=
  if !s.data.isEmpty && s.data.all isDigitChar then
    some (fromDigits ((s.data.map charDigit).reverse))
  else none

/-- `datetime.isoformat`: an injective textual timestamp rendering. -/
def isoformat (t : DateTime) : String := decimalString t

/-- `datetime.fromisoformat`: parses the rendering back; raises
(`none`) on a malformed string. -/
def fromisoformat (s : String) : Option DateTime := decimalParse s

/-- `ConversationMessage` dataclass. -/
structure ConversationMessage where
  role : String
  content : String
  timestamp : DateTime
  metadata : Json
deriving DecidableEq

/-- `ConversationSession` dataclass. -/
structure ConversationSession where
  session_id : String
  messages : List ConversationMessage
  created_at : DateTime
  updated_at : DateTime
  metadata : Json
deriving DecidableEq

/-- The store state of `ConversationalRAGSystem`: the fields the
session operations touch (`model_name` and the `sessions` dict). -/
structure ConversationalRAGSystem where
  model_name : String
  sessions : List (String × ConversationSession)
deriving DecidableEq

/-- Errors surfaced by the store operations (Python exceptions). -/
inductive StoreError where
  | notFound (session_id : String) : StoreError
  | notBuilt : StoreError
  | readError : StoreError
  | formatError (what : String) : StoreError
  | chainError (what : String) : StoreError
deriving DecidableEq

/-- Python dict lookup `m.get(k)`. -/
def dictGet {α : Type} : List (String × α) → String → Option α
  | [], _ => none
  | (k, v) :: rest, key => if k = key then some v else dictGet rest key

/-- Python `k in m`. -/
def dictContains {α : Type} (m : List (String × α)) (key : String) : Bool :=
  (dictGet m key).isSome

/-- Python dict assignment `m[k] = v`: replaces in place if the key
exists, otherwise appends. -/
def dictSet {α : Type} : List (String × α) → String → α → List (String × α)
  | [], key, v => [(key, v)]
  | (k, w) :: rest, key, v =>
    if k = key then (key, v) :: rest else (k, w) :: dictSet rest key v

/-- Python `del m[k]` (removes the binding of the key; dict keys are
unique, so removing every binding coincides with removing the one). -/
def dictDelete {α : Type} : List (String × α) → String → List (String × α)
  | [], _ => []
  | (k, w) :: rest, key =>
    if k = key then dictDelete rest key else (k, w) :: dictDelete rest key

/-- `create_session`: builds a fresh empty session and assigns it into
the dict, unconditionally.  When `session_id` is omitted the id is
`session_` followed by `int(time.time())` (whole seconds).  `tc` models
the `time.time()` / first `datetime.now()` read, `tu` the second. -/
def create_session (sys : ConversationalRAGSystem) (session_id : Option String)
    (tc tu : DateTime) : String × ConversationalRAGSystem :=
  let sid := match session_id with
    | none => "session_" ++ decimalString (tc / 1000000)
    | some s => s
  let session : ConversationSession :=
    { session_id := sid
      messages := []
      created_at := tc
      updated_at := tu
      metadata := Json.obj [("model", Json.str sys.model_name)] }
  (sid, { sys with sessions := dictSet sys.sessions sid session })

/-- `get_session`. -/
def get_session (sys : ConversationalRAGSystem) (session_id : String) :
    Option ConversationSession :=
  dictGet sys.sessions session_id

/-- `list_sessions`: the dict keys in order. -/
def list_sessions (sys : ConversationalRAGSystem) : List String :=
  sys.sessions.map Prod.fst

/-- `delete_session`: removes the session if present; returns whether a
deletion occurred. -/
def delete_session (sys : ConversationalRAGSystem) (session_id : String) :
    Bool × ConversationalRAGSystem :=
  if dictContains sys.sessions session_id then
    (true, { sys with sessions := dictDelete sys.sessions session_id })
  else
    (false, sys)

/-- `add_message`: raises NotFound (`ValueError`) if the session id is
absent, otherwise appends a message stamped `tm` and refreshes the
session's `updated_at` to `tu` (two separate `datetime.now()` reads).
The role is stored as given, without validation. -/
def add_message (sys : ConversationalRAGSystem) (session_id role content : String)
    (metadata : Json) (tm tu : DateTime) :
    Except StoreError Unit × ConversationalRAGSystem :=
  match dictGet sys.sessions session_id with
  | none => (Except.error (StoreError.notFound session_id), sys)
  | some session =>
    let message : ConversationMessage :=
      { role := role, content := content, timestamp := tm, metadata := metadata }
    let session1 :=
      { session with messages := session.messages ++ [message], updated_at := tu }
    (Except.ok (), { sys with sessions := dictSet sys.sessions session_id session1 })

/-- `get_conversation_history`: a copy of the session's messages, or
`[]` if the session does not exist. -/
def get_conversation_history (sys : ConversationalRAGSystem)
    (session_id : String) : List ConversationMessage :=
  match dictGet sys.sessions session_id with
  | none => []
  | some session => session.messages

/-- Serialization of one message inside `save_sessions`. -/
def dumpMessage (m : ConversationMessage) : Json :=
  Json.obj
    [ ("role", Json.str m.role)
    , ("content", Json.str m.content)
    , ("timestamp", Json.str (isoformat m.timestamp))
    , ("metadata", m.metadata) ]

/-- Serialization of one session inside `save_sessions`. -/
def dumpSession (s : ConversationSession) : Json :=
  Json.obj
    [ ("session_id", Json.str s.session_id)
    , ("messages", Json.arr (s.messages.map dumpMessage))
    , ("created_at", Json.str (isoformat s.created_at))
    , ("updated_at", Json.str (isoformat s.updated_at))
    , ("metadata", s.metadata) ]

/-- `save_sessions`: the JSON document written to the file. -/
def save_sessions (sys : ConversationalRAGSystem) : Json :=
  Json.obj (sys.sessions.map (fun p => (p.1, dumpSession p.2)))

/-- Reconstruction of one message inside `load_sessions`
(`ConversationMessage(role=msg["role"], ...)`); a missing key or a
value `fromisoformat` cannot take raises. -/
def parseMessage (j : Json) : Except StoreError ConversationMessage :=
  match j with
  | Json.obj kvs =>
    match dictGet kvs "role", dictGet kvs "content", dictGet kvs "timestamp" with
    | some (Json.str role), some (Json.str content), some (Json.str ts) =>
      match fromisoformat ts with
      | some t =>
        Except.ok
          { role := role, content := content, timestamp := t
            metadata := (dictGet kvs "metadata").getD Json.null }
      | none => Except.error (StoreError.formatError "timestamp")
    | _, _, _ => Except.error (StoreError.formatError "message")
  | _ => Except.error (StoreError.formatError "message")

/-- The message list comprehension inside `load_sessions`. -/
def parseMessages : List Json → Except StoreError (List ConversationMessage)
  | [] => Except.ok []
  | j :: rest =>
    match parseMessage j with
    | Except.error e => Except.error e
    | Except.ok m =>
      match parseMessages rest with
      | Except.error e => Except.error e
      | Except.ok ms => Except.ok (m :: ms)

/-- Reconstruction of one session inside `load_sessions`. -/
def parseSession (j : Json) : Except StoreError ConversationSession :=
  match j with
  | Json.obj kvs =>
    match dictGet kvs "session_id", dictGet kvs "messages",
        dictGet kvs "created_at", dictGet kvs "updated_at" with
    | some (Json.str sid), some (Json.arr msgs),
        some (Json.str ca), some (Json.str ua) =>
      match parseMessages msgs, fromisoformat ca, fromisoformat ua with
      | Except.ok ms, some ca2, some ua2 =>
        Except.ok
          { session_id := sid, messages := ms, created_at := ca2
            updated_at := ua2, metadata := (dictGet kvs "metadata").getD Json.null }
      | _, _, _ => Except.error (StoreError.formatError "session")
    | _, _, _, _ => Except.error (StoreError.formatError "session")
  | _ => Except.error (StoreError.formatError "session")

/-- The `for session_id, session_data in sessions_data.items()` loop of
`load_sessions`: sessions parsed so far are already assigned into the
(cleared) dict, so a failure leaves the partial result in place. -/
def loadLoop : List (String × Json) → List (String × ConversationSession) →
    Except StoreError Unit × List (String × ConversationSession)
  | [], acc => (Except.ok (), acc)
  | (sid, j) :: rest, acc =>
    match parseSession j with
    | Except.error e => (Except.error e, acc)
    | Except.ok s => loadLoop rest (dictSet acc sid s)

/-- `load_sessions`.  `file = none`: the open/`json.load` step raised,
before any mutation.  `file = some j`: `json.load` succeeded, the store
is cleared, then `j.items()` is iterated (a non-object document raises
at that point, after the clear). -/
def load_sessions (sys : ConversationalRAGSystem) (file : Option Json) :
    Except StoreError Unit × ConversationalRAGSystem :=
  match file with
  | none => (Except.error StoreError.readError, sys)
  | some (Json.obj kvs) =>
    let r := loadLoop kvs []
    (r.1, { sys with sessions := r.2 })
  | some _ =>
    (Except.error (StoreError.formatError "items"), { sys with sessions := [] })

/-- One `add_message` call's arguments: role, content, metadata and
the two `datetime.now()` reads of the call. -/
structure AppendCall where
  role : String
  content : String
  metadata : Json
  tm : DateTime
  tu : DateTime
deriving DecidableEq

/-- Run a sequence of `add_message` calls against one session. -/
def runAppends (sys : ConversationalRAGSystem) (session_id : String) :
    List AppendCall → ConversationalRAGSystem
  | [] => sys
  | c :: rest =>
    runAppends (add_message sys session_id c.role c.content c.metadata c.tm c.tu).2
      session_id rest

/-- The message an `add_message` call stores. -/
def callMessage (c : AppendCall) : ConversationMessage :=
  { role := c.role, content := c.content, timestamp := c.tm, metadata := c.metadata }

/-- The `query` return dict (`source_documents` modelled by its
length, `query_time` by elapsed microseconds). -/
structure QueryResponse where
  answer : String
  source_documents : Nat
  query_time : DateTime
  session_id : String
  message_count : Nat
deriving DecidableEq

/-- `query`: `chain` models `self.conversation_chain` (`none` when the
system is not built); `t1` the clock at session auto-creation, `t2` at
the user append, `t3` at the assistant append.  The user message is
appended before the chain runs; a chain failure propagates with the
user message already stored. -/
def query (sys : ConversationalRAGSystem)
    (chain : Option (String → Except StoreError (String × Nat)))
    (question session_id : String) (t1 t2 t3 : DateTime) :
    Except StoreError QueryResponse × ConversationalRAGSystem :=
  match chain with
  | none => (Except.error StoreError.notBuilt, sys)
  | some chainF =>
    let sys1 :=
      if dictContains sys.sessions session_id then sys
      else (create_session sys (some session_id) t1 t1).2
    match add_message sys1 session_id "user" question Json.null t2 t2 with
    | (Except.error e, sys2) => (Except.error e, sys2)
    | (Except.ok (), sys2) =>
      match chainF question with
      | Except.error e => (Except.error e, sys2)
      | Except.ok (answer, nDocs) =>
        let meta : Json :=
          Json.obj
            [ ("source_documents", Json.num (Int.ofNat nDocs))
            , ("query_time", Json.num (Int.ofNat (t3 - t1))) ]
        match add_message sys2 session_id "assistant" answer meta t3 t3 with
        | (Except.error e, sys3) => (Except.error e, sys3)
        | (Except.ok (), sys3) =>
          ( Except.ok
              { answer := answer
                source_documents := nDocs
                query_time := t3 - t1
                session_id := session_id
                message_count :=
                  ((dictGet sys3.sessions session_id).map
                    (fun s => s.messages.length)).getD 0 }
          , sys3 )

/-! ### Helper lemmas -/

/-- Digits produced by `toDigitsRev` are decimal digits. -/
theorem toDigitsRev_lt : ∀ (fuel n d : Nat), d ∈ toDigitsRev fuel n → d < 10 := by
  intro fuel
  induction fuel with
  | zero => intro n d h; simp [toDigitsRev] at h
  | succ fuel ih =>
    intro n d h
    by_cases h0 : n = 0
    · subst h0; simp [toDigitsRev] at h
    · simp only [toDigitsRev, if_neg h0, List.mem_cons] at h
      rcases h with h | h
      · subst h; exact Nat.mod_lt _ (by norm_num)
      · exact ih _ _ h

/-- With enough fuel, a nonzero number has a nonempty digit list. -/
theorem toDigitsRev_ne_nil (fuel n : Nat) (h0 : n ≠ 0) (hle : n ≤ fuel) :
    toDigitsRev fuel n ≠ [] := by
  cases fuel with
  | zero => exact absurd (Nat.le_zero.mp hle) h0
  | succ fuel => simp [toDigitsRev, if_neg h0]

/-- `fromDigits` inverts `toDigitsRev`. -/
theorem fromDigits_toDigitsRev : ∀ (fuel n : Nat), n ≤ fuel →
    fromDigits (toDigitsRev fuel n) = n := by
  intro fuel
  induction fuel with
  | zero =>
    intro n hn
    have h : n = 0 := Nat.le_zero.mp hn
    subst h
    rfl
  | succ fuel ih =>
    intro n hn
    by_cases h0 : n = 0
    · subst h0; rfl
    · have hdiv : n / 10 ≤ fuel := by
        have h1 : n / 10 < n := Nat.div_lt_self (Nat.pos_of_ne_zero h0) (by norm_num)
        omega
      simp only [toDigitsRev, if_neg h0, fromDigits, ih (n / 10) hdiv]
      exact Nat.mod_add_div n 10

/-- `charDigit` inverts `digitChar` on decimal digits. -/
theorem charDigit_digitChar : ∀ d < 10, charDigit (digitChar d) = d := by decide

/-- `digitChar` produces digit characters. -/
theorem isDigitChar_digitChar : ∀ d < 10, isDigitChar (digitChar d) = true := by decide

/-- The decimal rendering parses back to the number it renders. -/
theorem decimalParse_decimalString (n : Nat) :
    decimalParse (decimalString n) = some n := by
  by_cases h0 : n = 0
  · subst h0; rfl
  · have hne : toDigitsRev n n ≠ [] := toDigitsRev_ne_nil n n h0 le_rfl
    simp only [decimalString, if_neg h0, decimalParse]
    have hnonempty : (((toDigitsRev n n).map digitChar).reverse).isEmpty = false := by
      rw [List.isEmpty_eq_false]
      simp [hne]
    have hall : (((toDigitsRev n n).map digitChar).reverse).all isDigitChar = true := by
      rw [List.all_eq_true]
      intro c hc
      rw [List.mem_reverse] at hc
      rcases List.mem_map.mp hc with ⟨d, hd, rfl⟩
      exact isDigitChar_digitChar d (toDigitsRev_lt n n d hd)
    rw [hnonempty, hall]
    simp only [Bool.not_false, Bool.and_self, if_true]
    congr 1
    rw [← List.map_reverse, List.reverse_reverse, List.map_map]
    have hmap : (toDigitsRev n n).map (charDigit ∘ digitChar) = toDigitsRev n n := by
      have := List.map_congr_left (l := toDigitsRev n n)
        (f := charDigit ∘ digitChar) (g := id)
        (fun d hd => charDigit_digitChar d (toDigitsRev_lt n n d hd))
      rw [this, List.map_id]
    rw [hmap]
    exact fromDigits_toDigitsRev n n le_rfl

/-- `fromisoformat` inverts `isoformat` exactly. -/
theorem fromisoformat_isoformat (t : DateTime) :
    fromisoformat (isoformat t) = some t :=
  decimalParse_decimalString t

/-- Looking up the key just assigned. -/
theorem dictGet_dictSet_self {α : Type} (m : List (String × α)) (k : String) (v : α) :
    dictGet (dictSet m k v) k = some v := by
  induction m with
  | nil => simp [dictSet, dictGet]
  | cons p rest ih =>
    obtain ⟨k1, v1⟩ := p
    by_cases h : k1 = k
    · simp [dictSet, if_pos h, dictGet]
    · simp [dictSet, if_neg h, dictGet, if_neg h, ih]

/-- Assignment leaves other keys alone. -/
theorem dictGet_dictSet_ne {α : Type} (m : List (String × α)) (k k2 : String) (v : α)
    (h : k ≠ k2) : dictGet (dictSet m k v) k2 = dictGet m k2 := by
  induction m with
  | nil => simp [dictSet, dictGet, if_neg h]
  | cons p rest ih =>
    obtain ⟨k1, v1⟩ := p
    by_cases h1 : k1 = k
    · subst h1
      simp [dictSet, dictGet, if_neg h, ih]
    · by_cases h2 : k1 = k2
      · simp [dictSet, if_neg h1, dictGet, if_pos h2]
      · simp [dictSet, if_neg h1, dictGet, if_neg h2, ih]

/-- A key is absent exactly when lookup gives `none`. -/
theorem dictGet_eq_none_iff {α : Type} (m : List (String × α)) (k : String) :
    dictGet m k = none ↔ k ∉ m.map Prod.fst := by
  induction m with
  | nil => simp [dictGet]
  | cons p rest ih =>
    obtain ⟨k1, v1⟩ := p
    by_cases h : k1 = k
    · subst h; simp [dictGet]
    · simp [dictGet, if_neg h, ih, Ne.symm h]

/-- Assigning an absent key appends the binding. -/
theorem dictSet_eq_append {α : Type} (m : List (String × α)) (k : String) (v : α)
    (h : dictGet m k = none) : dictSet m k v = m ++ [(k, v)] := by
  induction m with
  | nil => simp [dictSet]
  | cons p rest ih =>
    obtain ⟨k1, v1⟩ := p
    by_cases h1 : k1 = k
    · subst h1; simp [dictGet] at h
    · simp only [dictGet, if_neg h1] at h
      simp [dictSet, if_neg h1, ih h]

/-- Assigning a present key keeps the key list. -/
theorem map_fst_dictSet_of_isSome {α : Type} (m : List (String × α)) (k : String) (v : α)
    (h : (dictGet m k).isSome) : (dictSet m k v).map Prod.fst = m.map Prod.fst := by
  induction m with
  | nil => simp [dictGet] at h
  | cons p rest ih =>
    obtain ⟨k1, v1⟩ := p
    by_cases h1 : k1 = k
    · subst h1; simp [dictSet]
    · simp only [dictGet, if_neg h1] at h
      simp [dictSet, if_neg h1, ih h]

/-- Deletion removes every binding of the key. -/
theorem dictGet_dictDelete_self {α : Type} (m : List (String × α)) (k : String) :
    dictGet (dictDelete m k) k = none := by
  induction m with
  | nil => simp [dictDelete, dictGet]
  | cons p rest ih =>
    obtain ⟨k1, v1⟩ := p
    by_cases h : k1 = k
    · simp [dictDelete, if_pos h, ih]
    · simp [dictDelete, if_neg h, dictGet, if_neg h, ih]

/-- A dumped message parses back to itself. -/
theorem parseMessage_dumpMessage (m : ConversationMessage) :
    parseMessage (dumpMessage m) = Except.ok m := by
  cases m with
  | mk role content timestamp metadata =>
    simp [parseMessage, dumpMessage, dictGet, fromisoformat_isoformat]

/-- A dumped message list parses back to itself. -/
theorem parseMessages_map_dumpMessage (l : List ConversationMessage) :
    parseMessages (l.map dumpMessage) = Except.ok l := by
  induction l with
  | nil => rfl
  | cons m rest ih =>
    simp [parseMessages, parseMessage_dumpMessage, ih]

/-- A dumped session parses back to itself. -/
theorem parseSession_dumpSession (s : ConversationSession) :
    parseSession (dumpSession s) = Except.ok s := by
  cases s with
  | mk sid messages created_at updated_at metadata =>
    simp [parseSession, dumpSession, dictGet, fromisoformat_isoformat,
      parseMessages_map_dumpMessage]

/-- The load loop over a dumped session list reconstructs it after the
already-loaded accumulator, when no keys repeat. -/
theorem loadLoop_map_dumpSession :
    ∀ (l acc : List (String × ConversationSession)),
    (acc.map Prod.fst ++ l.map Prod.fst).Nodup →
    loadLoop (l.map (fun p => (p.1, dumpSession p.2))) acc = (Except.ok (), acc ++ l) := by
  intro l
  induction l with
  | nil => intro acc _; simp [loadLoop]
  | cons p rest ih =>
    intro acc hnd
    obtain ⟨sid, s⟩ := p
    have hget : dictGet acc sid = none := by
      rw [dictGet_eq_none_iff]
      intro hmem
      have hdisj := (List.nodup_append.mp hnd).2.2
      exact hdisj hmem (by simp)
    simp only [List.map_cons, loadLoop, parseSession_dumpSession]
    rw [dictSet_eq_append acc sid s hget]
    rw [ih (acc ++ [(sid, s)]) ?hnd2]
    · simp
    case hnd2 =>
      simp only [List.map_append, List.map_cons, List.map_nil] at hnd ⊢
      rw [List.append_assoc]
      simpa using hnd

/-- History after a successful sequence of appends on a session. -/
theorem get_history_runAppends :
    ∀ (calls : List AppendCall) (sys : ConversationalRAGSystem) (sid : String)
      (s : ConversationSession), dictGet sys.sessions sid = some s →
    get_conversation_history (runAppends sys sid calls) sid
      = s.messages ++ calls.map callMessage := by
  intro calls
  induction calls with
  | nil => intro sys sid s h; simp [runAppends, get_conversation_history, h]
  | cons c rest ih =>
    intro sys sid s h
    simp only [runAppends]
    rw [ih _ sid ({ s with messages := s.messages ++ [callMessage c], updated_at := c.tu })
      (by simp [add_message, h, dictGet_dictSet_self, callMessage])]
    simp [callMessage]

/-! ### Claims -/

/-- C1: `save_sessions` followed by `load_sessions` into a fresh store
instance reproduces an equivalent set of sessions: the same session
ids in the same order, the same message sequences (role, content,
metadata, timestamp) and the same `created_at`/`updated_at` values,
field for field. -/
theorem claim1_save_load_roundtrip (sys fresh : ConversationalRAGSystem)
    (h : (sys.sessions.map Prod.fst).Nodup) :
    load_sessions fresh (some (save_sessions sys))
      = (Except.ok (), { fresh with sessions := sys.sessions }) := by
  simp only [load_sessions, save_sessions]
  rw [loadLoop_map_dumpSession sys.sessions [] (by simpa using h)]
  simp

/-- C1 witness: the round trip at a concrete one-session store. -/
theorem claim1_witness :
    (([("s1", (⟨"s1", [⟨"user", "hi", 5, Json.null⟩], 3, 7,
          Json.obj [("model", Json.str "m")]⟩ : ConversationSession))]).map Prod.fst).Nodup
    ∧ load_sessions ⟨"m", []⟩
        (some (save_sessions ⟨"m", [("s1", ⟨"s1", [⟨"user", "hi", 5, Json.null⟩], 3, 7,
          Json.obj [("model", Json.str "m")]⟩)]⟩))
      = (Except.ok (), ⟨"m", [("s1", ⟨"s1", [⟨"user", "hi", 5, Json.null⟩], 3, 7,
          Json.obj [("model", Json.str "m")]⟩)]⟩) :=
  ⟨by decide, claim1_save_load_roundtrip _ _ (by decide)⟩

/-- C2 counterexample: a well-formed JSON object whose second entry is
missing required fields makes `load_sessions` fail after it has
already cleared the store and loaded the first entry, so the prior
in-memory sessions are not preserved. -/
theorem claim2_counterexample :
    (load_sessions ⟨"m", [("a", ⟨"a", [], 1, 2, Json.null⟩)]⟩
        (some (Json.obj [("g", dumpSession ⟨"g", [], 4, 4, Json.null⟩),
          ("b", Json.obj [])]))).1
      = Except.error (StoreError.formatError "session")
    ∧ (load_sessions ⟨"m", [("a", ⟨"a", [], 1, 2, Json.null⟩)]⟩
        (some (Json.obj [("g", dumpSession ⟨"g", [], 4, 4, Json.null⟩),
          ("b", Json.obj [])]))).2.sessions
      = [("g", ⟨"g", [], 4, 4, Json.null⟩)]
    ∧ [("g", (⟨"g", [], 4, 4, Json.null⟩ : ConversationSession))]
      ≠ [("a", ⟨"a", [], 1, 2, Json.null⟩)] := by
  exact ⟨rfl, rfl, by decide⟩

/-- C2 amended: only a failure inside `json.load` (unreadable file or
malformed JSON, raised before any mutation) leaves the prior in-memory
sessions unchanged; a failure after parsing (non-object document or an
entry missing required fields) clears the store first and leaves the
partially loaded entries behind. -/
theorem claim2_amended_preparse_failure (sys : ConversationalRAGSystem) :
    load_sessions sys none = (Except.error StoreError.readError, sys) := rfl

/-- C3 counterexample: `add_message` with the unrecognized role
`"system"` on an existing session succeeds (no InvalidArgument) and
the session's message count changes from 0 to 1. -/
theorem claim3_counterexample :
    (add_message ⟨"m", [("s", ⟨"s", [], 0, 0, Json.null⟩)]⟩
        "s" "system" "hello" Json.null 1 2).1 = Except.ok ()
    ∧ (get_conversation_history
        (add_message ⟨"m", [("s", ⟨"s", [], 0, 0, Json.null⟩)]⟩
          "s" "system" "hello" Json.null 1 2).2 "s").length = 1 := by
  exact ⟨rfl, rfl⟩

/-- C3 amended: `add_message` performs no role validation: on an
existing session it succeeds for every role string, storing the role
verbatim and growing the history by exactly that message; only session
existence is checked. -/
theorem claim3_amended_no_role_validation (sys : ConversationalRAGSystem)
    (sid role content : String) (md : Json) (tm tu : DateTime)
    (s : ConversationSession) (h : dictGet sys.sessions sid = some s) :
    (add_message sys sid role content md tm tu).1 = Except.ok ()
    ∧ get_conversation_history (add_message sys sid role content md tm tu).2 sid
        = s.messages
          ++ [{ role := role, content := content, timestamp := tm, metadata := md }] := by
  constructor
  · simp [add_message, h]
  · simp [add_message, h, get_conversation_history, dictGet_dictSet_self]

/-- C3 witness: the amended claim at a concrete store and the
unrecognized role `"system"`. -/
theorem claim3_witness :
    dictGet ((⟨"m", [("s", ⟨"s", [], 0, 0, Json.null⟩)]⟩ :
        ConversationalRAGSystem)).sessions "s"
      = some ⟨"s", [], 0, 0, Json.null⟩
    ∧ ((add_message ⟨"m", [("s", ⟨"s", [], 0, 0, Json.null⟩)]⟩
          "s" "system" "hi" Json.null 1 2).1 = Except.ok ()
      ∧ get_conversation_history
          (add_message ⟨"m", [("s", ⟨"s", [], 0, 0, Json.null⟩)]⟩
            "s" "system" "hi" Json.null 1 2).2 "s"
        = (⟨"s", [], 0, 0, Json.null⟩ : ConversationSession).messages
          ++ [{ role := "system", content := "hi", timestamp := 1, metadata := Json.null }]) :=
  ⟨rfl, claim3_amended_no_role_validation _ "s" "system" "hi" Json.null 1 2 _ rfl⟩

/-- C4: `add_message` on a session id absent from the store fails with
NotFound and returns the store unchanged (same session set, every
message sequence untouched). -/
theorem claim4_add_message_not_found (sys : ConversationalRAGSystem)
    (sid role content : String) (md : Json) (tm tu : DateTime)
    (h : dictGet sys.sessions sid = none) :
    add_message sys sid role content md tm tu
      = (Except.error (StoreError.notFound sid), sys) := by
  simp [add_message, h]

/-- C4 witness: the NotFound failure at a concrete store. -/
theorem claim4_witness :
    dictGet ((⟨"m", [("a", ⟨"a", [], 0, 0, Json.null⟩)]⟩ :
        ConversationalRAGSystem)).sessions "b" = none
    ∧ add_message ⟨"m", [("a", ⟨"a", [], 0, 0, Json.null⟩)]⟩
        "b" "user" "hi" Json.null 1 2
      = (Except.error (StoreError.notFound "b"),
          ⟨"m", [("a", ⟨"a", [], 0, 0, Json.null⟩)]⟩) :=
  ⟨rfl, claim4_add_message_not_found _ "b" "user" "hi" Json.null 1 2 rfl⟩

/-- C5: on a freshly created session, any sequence of `add_message`
calls is returned by `get_conversation_history` in exactly the call
order with roles, contents, metadata and timestamps verbatim (the
returned list is a value, Python's `.copy()`); and for a session id
not in the store, `get_conversation_history` returns the empty
sequence rather than an error. -/
theorem claim5_history_order (sys : ConversationalRAGSystem) (sid other : String)
    (tc tu : DateTime) (calls : List AppendCall)
    (h : dictGet sys.sessions other = none) :
    get_conversation_history
        (runAppends (create_session sys (some sid) tc tu).2 sid calls) sid
      = calls.map callMessage
    ∧ get_conversation_history sys other = [] := by
  constructor
  · rw [get_history_runAppends calls _ sid
      ⟨sid, [], tc, tu, Json.obj [("model", Json.str sys.model_name)]⟩
      (by simp [create_session, dictGet_dictSet_self])]
    simp
  · simp [get_conversation_history, h]

/-- C5 witness: two appends on a fresh session, and a missing id. -/
theorem claim5_witness :
    dictGet ((⟨"m", []⟩ : ConversationalRAGSystem)).sessions "t" = none
    ∧ (get_conversation_history
          (runAppends (create_session ⟨"m", []⟩ (some "s") 1 1).2 "s"
            [⟨"user", "a", Json.null, 2, 2⟩, ⟨"assistant", "b", Json.null, 3, 3⟩]) "s"
        = [(⟨"user", "a", Json.null, 2, 2⟩ : AppendCall),
            ⟨"assistant", "b", Json.null, 3, 3⟩].map callMessage
      ∧ get_conversation_history ⟨"m", []⟩ "t" = []) :=
  ⟨rfl, claim5_history_order _ "s" "t" 1 1 _ rfl⟩

/-- C6 counterexample: two `create_session` calls with the id omitted
at distinct instants inside the same clock second (1.0s and 1.5s)
generate the same id `session_1`, and the second call collides with
the first: the store ends up with a single session. -/
theorem claim6_counterexample :
    (create_session ((create_session ⟨"m", []⟩ none 1000000 1000000).2)
        none 1500000 1500000).1
      = (create_session ⟨"m", []⟩ none 1000000 1000000).1
    ∧ ((create_session ((create_session ⟨"m", []⟩ none 1000000 1000000).2)
        none 1500000 1500000).2).sessions.map Prod.fst = ["session_1"] := by
  exact ⟨rfl, rfl⟩

/-- C6 amended: a generated session id is `session_` followed by the
whole-second clock value, so omitted-id calls in the same clock second
generate the same id; the later call then replaces the earlier session
instead of adding one (`list_sessions` gains no entry). Calls in
distinct seconds do generate distinct ids. -/
theorem claim6_amended_same_second_collision (sys1 sys2 : ConversationalRAGSystem)
    (t1 u1 t2 u2 : DateTime) (h : t1 / 1000000 = t2 / 1000000) :
    (create_session sys1 none t1 u1).1 = (create_session sys2 none t2 u2).1
    ∧ list_sessions (create_session ((create_session sys1 none t1 u1).2) none t2 u2).2
        = list_sessions (create_session sys1 none t1 u1).2 := by
  constructor
  · simp [create_session, h]
  · simp only [create_session, list_sessions]
    rw [← h]
    exact map_fst_dictSet_of_isSome _ _ _ (by simp [dictGet_dictSet_self])

/-- C6 witness: the same-second collision at 1.000000s and 1.999999s. -/
theorem claim6_witness :
    (1000000 : Nat) / 1000000 = (1999999 : Nat) / 1000000
    ∧ ((create_session ⟨"m", []⟩ none 1000000 1000000).1
        = (create_session ⟨"x", []⟩ none 1999999 1999999).1
      ∧ list_sessions (create_session ((create_session ⟨"m", []⟩ none 1000000 1000000).2)
            none 1999999 1999999).2
          = list_sessions (create_session ⟨"m", []⟩ none 1000000 1000000).2) :=
  ⟨by decide,
    claim6_amended_same_second_collision ⟨"m", []⟩ ⟨"x", []⟩ 1000000 1000000 1999999 1999999
      (by decide)⟩

/-- C7: `delete_session` removes the session if present and returns
true exactly when a deletion occurred, never an error for a missing
id; afterwards the id is gone from `list_sessions`,
`get_conversation_history` on it returns the empty sequence, and a
second `delete_session` on the same id returns false. -/
theorem claim7_delete_session (sys : ConversationalRAGSystem) (sid : String) :
    (delete_session sys sid).1 = dictContains sys.sessions sid
    ∧ sid ∉ list_sessions (delete_session sys sid).2
    ∧ get_conversation_history (delete_session sys sid).2 sid = []
    ∧ (delete_session (delete_session sys sid).2 sid).1 = false := by
  by_cases h : dictContains sys.sessions sid = true
  · have hdel : delete_session sys sid
        = (true, { sys with sessions := dictDelete sys.sessions sid }) := by
      simp [delete_session, h]
    have hnone : dictGet (dictDelete sys.sessions sid) sid = none :=
      dictGet_dictDelete_self _ _
    refine ⟨?_, ?_, ?_, ?_⟩
    · rw [hdel]; exact h.symm
    · rw [hdel]
      simpa [list_sessions] using (dictGet_eq_none_iff _ _).mp hnone
    · rw [hdel]; simp [get_conversation_history, hnone]
    · rw [hdel]; simp [delete_session, dictContains, hnone]
  · have hb : dictContains sys.sessions sid = false := by
      cases hk : dictContains sys.sessions sid
      · rfl
      · exact absurd hk h
    have hnone : dictGet sys.sessions sid = none := by
      cases hk : dictGet sys.sessions sid with
      | none => rfl
      | some v => rw [dictContains, hk] at hb; simp at hb
    have hdel : delete_session sys sid = (false, sys) := by
      simp [delete_session, hb]
    refine ⟨?_, ?_, ?_, ?_⟩
    · rw [hdel]; exact hb.symm
    · rw [hdel]
      simpa [list_sessions] using (dictGet_eq_none_iff _ _).mp hnone
    · rw [hdel]; simp [get_conversation_history, hnone]
    · rw [hdel]; simp [delete_session, hb]

/-- C8: a successful `add_message` appends exactly one message (with
the freshly captured timestamp) to the target session, refreshes that
session's `updated_at`, and leaves its `session_id`, `created_at` and
session-level metadata — as well as every other session and the rest
of the store — unchanged. -/
theorem claim8_add_message_frame (sys : ConversationalRAGSystem)
    (sid role content : String) (md : Json) (tm tu : DateTime)
    (s : ConversationSession) (h : dictGet sys.sessions sid = some s) :
    (add_message sys sid role content md tm tu).1 = Except.ok ()
    ∧ dictGet ((add_message sys sid role content md tm tu).2).sessions sid
        = some ⟨s.session_id,
            s.messages ++ [{ role := role, content := content, timestamp := tm, metadata := md }],
            s.created_at, tu, s.metadata⟩
    ∧ ((add_message sys sid role content md tm tu).2).model_name = sys.model_name
    ∧ ∀ k, k ≠ sid →
        dictGet ((add_message sys sid role content md tm tu).2).sessions k
          = dictGet sys.sessions k := by
  obtain ⟨sid0, msgs, ca, ua, md0⟩ := s
  refine ⟨by simp [add_message, h], ?_, by simp [add_message, h], ?_⟩
  · simp [add_message, h, dictGet_dictSet_self]
  · intro k hk
    simp [add_message, h, dictGet_dictSet_ne sys.sessions sid k _ (Ne.symm hk)]

/-- C8 witness: one append at a concrete store. -/
theorem claim8_witness :
    dictGet ((⟨"m", [("s", ⟨"s", [⟨"user", "x", 1, Json.null⟩], 0, 1,
        Json.obj [("model", Json.str "m")]⟩)]⟩ : ConversationalRAGSystem)).sessions "s"
      = some ⟨"s", [⟨"user", "x", 1, Json.null⟩], 0, 1, Json.obj [("model", Json.str "m")]⟩
    ∧ ((add_message ⟨"m", [("s", ⟨"s", [⟨"user", "x", 1, Json.null⟩], 0, 1,
          Json.obj [("model", Json.str "m")]⟩)]⟩ "s" "assistant" "y" Json.null 2 3).1
        = Except.ok ()
      ∧ dictGet ((add_message ⟨"m", [("s", ⟨"s", [⟨"user", "x", 1, Json.null⟩], 0, 1,
            Json.obj [("model", Json.str "m")]⟩)]⟩ "s" "assistant" "y" Json.null 2 3).2).sessions "s"
        = some ⟨(⟨"s", [⟨"user", "x", 1, Json.null⟩], 0, 1,
              Json.obj [("model", Json.str "m")]⟩ : ConversationSession).session_id,
            (⟨"s", [⟨"user", "x", 1, Json.null⟩], 0, 1,
              Json.obj [("model", Json.str "m")]⟩ : ConversationSession).messages
              ++ [{ role := "assistant", content := "y", timestamp := 2, metadata := Json.null }],
            (⟨"s", [⟨"user", "x", 1, Json.null⟩], 0, 1,
              Json.obj [("model", Json.str "m")]⟩ : ConversationSession).created_at, 3,
            (⟨"s", [⟨"user", "x", 1, Json.null⟩], 0, 1,
              Json.obj [("model", Json.str "m")]⟩ : ConversationSession).metadata⟩
      ∧ ((add_message ⟨"m", [("s", ⟨"s", [⟨"user", "x", 1, Json.null⟩], 0, 1,
            Json.obj [("model", Json.str "m")]⟩)]⟩ "s" "assistant" "y" Json.null 2 3).2).model_name
        = "m"
      ∧ ∀ k, k ≠ "s" →
          dictGet ((add_message ⟨"m", [("s", ⟨"s", [⟨"user", "x", 1, Json.null⟩], 0, 1,
              Json.obj [("model", Json.str "m")]⟩)]⟩ "s" "assistant" "y" Json.null 2 3).2).sessions k
            = dictGet ((⟨"m", [("s", ⟨"s", [⟨"user", "x", 1, Json.null⟩], 0, 1,
                Json.obj [("model", Json.str "m")]⟩)]⟩ : ConversationalRAGSystem)).sessions k) :=
  ⟨rfl, claim8_add_message_frame _ "s" "assistant" "y" Json.null 2 3 _ rfl⟩

/-- C9: `query` records the user's question in the session history
before the generation step runs: if the chain fails, the error
propagates to the caller and the user message just appended is still
the last stored message of the session. -/
theorem claim9_user_message_recorded (sys : ConversationalRAGSystem)
    (chainF : String → Except StoreError (String × Nat))
    (question sid : String) (t1 t2 t3 : DateTime) (e : StoreError)
    (h : chainF question = Except.error e) :
    (query sys (some chainF) question sid t1 t2 t3).1 = Except.error e
    ∧ (get_conversation_history (query sys (some chainF) question sid t1 t2 t3).2 sid).getLast?
        = some { role := "user", content := question, timestamp := t2, metadata := Json.null } := by
  set sys1 := (if dictContains sys.sessions sid then sys
    else (create_session sys (some sid) t1 t1).2) with hsys1def
  have hex : ∃ s1, dictGet sys1.sessions sid = some s1 := by
    rw [hsys1def]
    by_cases hc : dictContains sys.sessions sid = true
    · rw [if_pos hc]
      rw [dictContains] at hc
      exact Option.isSome_iff_exists.mp hc
    · rw [if_neg hc]
      refine ⟨⟨sid, [], t1, t1, Json.obj [("model", Json.str sys.model_name)]⟩, ?_⟩
      simp [create_session, dictGet_dictSet_self]
  obtain ⟨s1, hs1⟩ := hex
  have hq : query sys (some chainF) question sid t1 t2 t3
      = (Except.error e,
          ⟨sys1.model_name,
            dictSet sys1.sessions sid
              ⟨s1.session_id,
                s1.messages ++ [⟨"user", question, t2, Json.null⟩],
                s1.created_at, t2, s1.metadata⟩⟩) := by
    simp only [query, ← hsys1def]
    simp only [add_message, hs1]
    rw [h]
  rw [hq]
  refine ⟨rfl, ?_⟩
  simp [get_conversation_history, dictGet_dictSet_self]

/-- C9 witness: a failing chain at a concrete store; the user message
is the last stored message afterwards. -/
theorem claim9_witness :
    (fun _ : String =>
        (Except.error (StoreError.chainError "boom") : Except StoreError (String × Nat))) "q"
      = Except.error (StoreError.chainError "boom")
    ∧ ((query ⟨"m", []⟩
          (some (fun _ => Except.error (StoreError.chainError "boom"))) "q" "s" 1 2 3).1
        = Except.error (StoreError.chainError "boom")
      ∧ (get_conversation_history
          (query ⟨"m", []⟩
            (some (fun _ => Except.error (StoreError.chainError "boom"))) "q" "s" 1 2 3).2
            "s").getLast?
        = some { role := "user", content := "q", timestamp := 2, metadata := Json.null }) :=
  ⟨rfl, claim9_user_message_recorded ⟨"m", []⟩ _ "q" "s" 1 2 3 _ rfl⟩

/-- C10: `create_session` with a caller-supplied id assigns a fresh
empty session to that key unconditionally — in particular, when the id
already exists the previous session's messages, `created_at` and
metadata are silently discarded, with no error and no reuse of the
existing session. -/
theorem claim10_create_session_replaces (sys : ConversationalRAGSystem)
    (sid : String) (tc tu : DateTime) :
    (create_session sys (some sid) tc tu).1 = sid
    ∧ get_session ((create_session sys (some sid) tc tu).2) sid
        = some ⟨sid, [], tc, tu, Json.obj [("model", Json.str sys.model_name)]⟩ :=
  ⟨rfl, by simp [create_session, get_session, dictGet_dictSet_self]⟩
